import Mathlib

/-!
Verification of the reactor-core simulation pipeline (src/simulation/computation.rs)
against its natural-language specification.

The six per-tick stages of the pipeline are shallowly embedded over exact
rationals (ℚ stands in for the Rust f32 values; every formula of the source is
algebraic except `f32::powf`, which is taken as an uninterpreted parameter
`powf : ℚ → ℚ → ℚ` wherever it is used, so every theorem below holds for every
possible rounding of the power function).

The repository's `types.rs` module (component/type definitions, `Default`
impls, `Position::neighbours`, `ReactorCore::find_edge`) is not part of the
sources provided; those pieces are modelled from the specification text and
are marked as such in their doc comments.  All stage bodies are translated
directly from `computation.rs`.
-/

namespace Reactor

/-- Modelled from the spec: `Position` (types.rs is absent from the sources):
an integer 2D coordinate. -/
structure Position where
  x : Int
  y : Int
deriving DecidableEq

/-- Modelled from the spec: `Position::neighbours()` returns exactly the 4
axis-aligned neighbour coordinates (x±1,y), (x,y±1); no diagonals. -/
def Position.neighbours (p : Position) : List Position :=
  [⟨p.x + 1, p.y⟩, ⟨p.x - 1, p.y⟩, ⟨p.x, p.y + 1⟩, ⟨p.x, p.y - 1⟩]

/-- The physical state of one reactor cell: one field per component attached
to a cell entity in `computation.rs` (ControlRod, CoolantLevel,
LocalReactivity, Reactivity, Temperature, SteamLevel, SteamOutput, Pressure,
CoolantFlow, SteamPullCapacity). -/
structure Cell where
  control_rod : ℚ
  coolant_level : ℚ
  local_reactivity : ℚ
  reactivity : ℚ
  temperature : ℚ
  steam_level : ℚ
  steam_output : ℚ
  pressure : ℚ
  coolant_flow : ℚ
  steam_pull_capacity : ℚ
deriving DecidableEq

/-- Modelled from the spec: all numeric cell fields have type-default 0
(the components of types.rs derive their defaults). -/
def Cell.default : Cell :=
  { control_rod := 0, coolant_level := 0, local_reactivity := 0,
    reactivity := 0, temperature := 0, steam_level := 0, steam_output := 0,
    pressure := 0, coolant_flow := 0, steam_pull_capacity := 0 }

/-- An edge entity: its two endpoint positions (`ReactorEdge.nodes`) and its
derived `Reactivity` and `Temperature` components. -/
structure Edge where
  nodes : Position × Position
  reactivity : ℚ
  temperature : ℚ
deriving DecidableEq

/-- The simulation constants (`SimulationConfig` resource); the fields are
exactly those read by `computation.rs`.  (The source field
`steam_expansion_ratio` is called `steam_expansion` here.) -/
structure SimulationConfig where
  base_reactivity : ℚ
  void_reactivity_boost : ℚ
  reactivity_neighbor_coupling_factor : ℚ
  heat_generation_factor : ℚ
  coolant_temperature : ℚ
  coolant_efficiency : ℚ
  temperature_passive_decay_rate : ℚ
  energy_per_heat_unit : ℚ
  energy_required_per_unit : ℚ
  steam_expansion : ℚ
  pressure_curve_exponent : ℚ
  nominal_pressure : ℚ
  pressure_scale : ℚ
  steam_pull_factor : ℚ
deriving DecidableEq

/-- The reactor core grid: `cells_by_pos` maps each occupied position to its
cell (a unique cell per position, as the spec's index guarantees), and the
list of edge entities parented to this core. -/
structure Core where
  cells_by_pos : Position → Option Cell
  edges : List Edge

/-- Modelled from the spec: `ReactorCore::find_edge(a, b)` resolves the edge
connecting positions a and b if one exists, the same edge regardless of
argument order (undirected). -/
def Core.find_edge (core : Core) (a b : Position) : Option Edge :=
  core.edges.find? (fun e => decide (e.nodes = (a, b)) || decide (e.nodes = (b, a)))

/-- Look a cell up in the core's index (`core.cells_by_pos.get(&pos)`). -/
def Core.cellAt (core : Core) (p : Position) : Option Cell :=
  core.cells_by_pos p

/-- Apply a per-cell update to every cell of the grid (an ECS query over cell
entities; the update may read the whole pre-stage core). -/
def Core.mapCells (core : Core) (f : Position → Cell → Cell) : Core :=
  { core with cells_by_pos := fun p => (core.cells_by_pos p).map (f p) }

/-! ## Stage 1: local reactivity (`update_local_reactivity`) -/

/-- Body of the `update_local_reactivity` loop for one cell:
`rod_factor = 1 - control_rod`,
`coolant_factor = 1 + void_reactivity_boost * (1 - coolant_level)`,
`local_reactivity = base_reactivity * rod_factor * coolant_factor`. -/
def localReactivityUpdate (config : SimulationConfig) (c : Cell) : Cell :=
  let rod_factor := 1 - c.control_rod
  let coolant_factor := 1 + config.void_reactivity_boost * (1 - c.coolant_level)
  { c with local_reactivity := config.base_reactivity * rod_factor * coolant_factor }

/-- `update_local_reactivity`: run `localReactivityUpdate` on every cell. -/
def update_local_reactivity (config : SimulationConfig) (core : Core) : Core :=
  core.mapCells (fun _ c => localReactivityUpdate config c)

/-! ## Stage 2: edge reactivity (`update_edge_reactivity`) -/

/-- Body of the `update_edge_reactivity` loop for one edge, together with the
warnings it logs: if either endpoint position is missing from the index the
edge is left unchanged and a warning is emitted (`continue`); otherwise its
reactivity becomes the average of the endpoints' local reactivities. -/
def edgeReactivityUpdate (core : Core) (e : Edge) : Edge × List String :=
  match core.cellAt e.nodes.1 with
  | none => (e, ["First node not found"])
  | some first =>
    match core.cellAt e.nodes.2 with
    | none => (e, ["Second node not found"])
    | some second =>
      ({ e with reactivity := (first.local_reactivity + second.local_reactivity) / 2 }, [])

/-- `update_edge_reactivity`: run `edgeReactivityUpdate` on every edge,
collecting the warnings; no failure aborts the loop. -/
def update_edge_reactivity (core : Core) : Core × List String :=
  ({ core with edges := core.edges.map (fun e => (edgeReactivityUpdate core e).1) },
   (core.edges.map (fun e => (edgeReactivityUpdate core e).2)).flatten)

/-! ## Stage 3: total reactivity (`update_total_reactivity`) -/

/-- One direction's contribution to `neighbor_sum` in
`update_total_reactivity`: the connecting edge's reactivity when `find_edge`
resolves one and 0.0 otherwise. -/
def edgeReactivityOr0 (core : Core) (p q : Position) : ℚ :=
  match core.find_edge p q with
  | some e => e.reactivity
  | none => 0

/-- The `neighbor_sum` loop of `update_total_reactivity` over the cell's 4
neighbour positions. -/
def neighborReactivitySum (core : Core) (p : Position) : ℚ :=
  p.neighbours.foldl (fun acc pos => acc + edgeReactivityOr0 core p pos) 0

/-- Body of the `update_total_reactivity` loop for one cell at position `p`:
`neighbor_boost = neighbor_sum * reactivity_neighbor_coupling_factor`,
`reactivity = local_reactivity + neighbor_boost`. -/
def totalReactivityUpdate (config : SimulationConfig) (core : Core)
    (p : Position) (c : Cell) : Cell :=
  let neighbor_boost := neighborReactivitySum core p * config.reactivity_neighbor_coupling_factor
  { c with reactivity := c.local_reactivity + neighbor_boost }

/-- `update_total_reactivity`: run `totalReactivityUpdate` on every cell. -/
def update_total_reactivity (config : SimulationConfig) (core : Core) : Core :=
  core.mapCells (fun p c => totalReactivityUpdate config core p c)

/-! ## Stage 4: edge temperatures (`update_edge_temperatures`) -/

/-- Body of the `update_edge_temperatures` loop for one edge, with its
warnings: same missing-endpoint policy as `edgeReactivityUpdate`; otherwise
the edge temperature becomes the average of the connected cells'. -/
def edgeTemperatureUpdate (core : Core) (e : Edge) : Edge × List String :=
  match core.cellAt e.nodes.1 with
  | none => (e, ["First node not found"])
  | some first =>
    match core.cellAt e.nodes.2 with
    | none => (e, ["Second node not found"])
    | some second =>
      ({ e with temperature := (first.temperature + second.temperature) / 2 }, [])

/-- `update_edge_temperatures`: run `edgeTemperatureUpdate` on every edge,
collecting the warnings; no failure aborts the loop. -/
def update_edge_temperatures (core : Core) : Core × List String :=
  ({ core with edges := core.edges.map (fun e => (edgeTemperatureUpdate core e).1) },
   (core.edges.map (fun e => (edgeTemperatureUpdate core e).2)).flatten)

/-! ## Stage 5: cell temperatures (`update_temperature`) -/

/-- One direction's contribution to `neighbor_temp_sum` in
`update_temperature`: the connecting edge's temperature when `find_edge`
resolves one and the fallback 25.0 otherwise. -/
def edgeTemperatureOr25 (core : Core) (p q : Position) : ℚ :=
  match core.find_edge p q with
  | some e => e.temperature
  | none => 25

/-- The `neighbor_temp_sum` loop of `update_temperature` over the cell's 4
neighbour positions. -/
def neighborTempSum (core : Core) (p : Position) : ℚ :=
  p.neighbours.foldl (fun acc pos => acc + edgeTemperatureOr25 core p pos) 0

/-- Body of the `update_temperature` loop for one cell at position `p`:
`ambient_temperature = neighbor_temp_sum / 4`,
`heat_gain = reactivity * heat_generation_factor`,
`heat_loss = coolant_level * coolant_efficiency * (temperature - coolant_temperature)`,
`passive_heat_loss = (temperature - ambient_temperature) * temperature_passive_decay_rate`,
`temperature += heat_gain - heat_loss - passive_heat_loss`. -/
def temperatureUpdate (config : SimulationConfig) (core : Core)
    (p : Position) (c : Cell) : Cell :=
  let ambient_temperature := neighborTempSum core p / 4
  let heat_gain := c.reactivity * config.heat_generation_factor
  let coolant_temp_diff := c.temperature - config.coolant_temperature
  let heat_loss := c.coolant_level * config.coolant_efficiency * coolant_temp_diff
  let ambient_temp_diff := c.temperature - ambient_temperature
  let passive_heat_loss := ambient_temp_diff * config.temperature_passive_decay_rate
  { c with temperature := c.temperature + heat_gain - heat_loss - passive_heat_loss }

/-- `update_temperature`: run `temperatureUpdate` on every cell. -/
def update_temperature (config : SimulationConfig) (core : Core) : Core :=
  core.mapCells (fun p c => temperatureUpdate config core p c)

/-! ## Stage 6: steam generation (`generate_steam`)

The body of the per-cell loop, split along the source's five blocks. -/

/-- `boiling_point = 100.0 + (pressure - 1.0) * 3.0`. -/
def boiling_point (pressure : ℚ) : ℚ :=
  100 + (pressure - 1) * 3

/-- The phase-change block: if `temperature > boiling_point && coolant_level > 0`,
boil `min(heat_excess * energy_per_heat_unit / energy_required_per_unit,
coolant_level)` units of coolant into steam. -/
def phaseChange (config : SimulationConfig) (c : Cell) : Cell :=
  if c.temperature > boiling_point c.pressure ∧ c.coolant_level > 0 then
    let heat_excess := c.temperature - boiling_point c.pressure
    let available_energy := heat_excess * config.energy_per_heat_unit
    let max_steam_from_energy := available_energy / config.energy_required_per_unit
    let coolant_boiled := min max_steam_from_energy c.coolant_level
    { c with coolant_level := c.coolant_level - coolant_boiled,
             steam_level := c.steam_level + coolant_boiled }
  else c

/-- `available_space = (1.0 - coolant_level).max(0.01)` — the floor that
prevents division by zero. -/
def available_space (coolant_level : ℚ) : ℚ :=
  max (1 - coolant_level) (1 / 100)

/-- `temp_kelvin = (temperature + 273.15).max(0.0)`. -/
def temp_kelvin (temperature : ℚ) : ℚ :=
  max (temperature + 27315 / 100) 0

/-- The pressure block: `raw_pressure = gas_amount * temp_kelvin / available_space`,
`pressure = nominal_pressure + raw_pressure.powf(pressure_curve_exponent) * pressure_scale`.
`powf` is the uninterpreted power function. -/
def pressureStep (powf : ℚ → ℚ → ℚ) (config : SimulationConfig) (c : Cell) : Cell :=
  let gas_amount := c.steam_level * config.steam_expansion
  let raw_pressure := gas_amount * temp_kelvin c.temperature / available_space c.coolant_level
  let curved_pressure := powf raw_pressure config.pressure_curve_exponent
  { c with pressure := config.nominal_pressure + curved_pressure * config.pressure_scale }

/-- `potential_steam_output = steam_pull_capacity.min(steam_pull_factor * (pressure / nominal_pressure))`. -/
def potential_steam_output (config : SimulationConfig) (cap pressure : ℚ) : ℚ :=
  min cap (config.steam_pull_factor * (pressure / config.nominal_pressure))

/-- The output block: `volume_excess = (coolant_level + steam_level - 1.0).max(0.0)`,
`steam_output = steam_level.min(volume_excess).min(potential_steam_output).max(0.0)`,
then the output is removed from `steam_level`. -/
def outputStep (config : SimulationConfig) (c : Cell) : Cell :=
  let pot := potential_steam_output config c.steam_pull_capacity c.pressure
  let volume_excess := max (c.coolant_level + c.steam_level - 1) 0
  let out := max (min (min c.steam_level volume_excess) pot) 0
  { c with steam_output := out, steam_level := c.steam_level - out }

/-- The coolant-refill block: `space_remaining = 1.0 - (coolant_level + steam_level)`,
`added_coolant = coolant_flow.min(space_remaining)`, added to `coolant_level`. -/
def refillStep (c : Cell) : Cell :=
  let space_remaining := 1 - (c.coolant_level + c.steam_level)
  let added_coolant := min c.coolant_flow space_remaining
  { c with coolant_level := c.coolant_level + added_coolant }

/-- The whole `generate_steam` body for one cell: the five blocks in source
order. -/
def generateSteamCell (powf : ℚ → ℚ → ℚ) (config : SimulationConfig) (c : Cell) : Cell :=
  refillStep (outputStep config (pressureStep powf config (phaseChange config c)))

/-- `generate_steam`: run the per-cell body on every cell. -/
def generate_steam (powf : ℚ → ℚ → ℚ) (config : SimulationConfig) (core : Core) : Core :=
  core.mapCells (fun _ c => generateSteamCell powf config c)

/-! ## One tick

The `RunSimulation` schedule chains
`update_local_reactivity → update_edge_reactivity → update_total_reactivity →
update_temperature → generate_steam`, with `update_edge_temperatures` ordered
before `update_temperature`. -/

/-- One full tick of the pipeline (warnings of the edge stages discarded). -/
def tick (powf : ℚ → ℚ → ℚ) (config : SimulationConfig) (core : Core) : Core :=
  let s1 := update_local_reactivity config core
  let s2 := (update_edge_reactivity s1).1
  let s3 := update_total_reactivity config s2
  let s4 := (update_edge_temperatures s3).1
  let s5 := update_temperature config s4
  generate_steam powf config s5

/-- A core holding the single cell `c` at the origin and no edges. -/
def singleCellCore (c : Cell) : Core :=
  { cells_by_pos := fun p => if p = ⟨0, 0⟩ then some c else none,
    edges := [] }

/-- A configuration with every constant equal to 1, used to instantiate
universally quantified results on a concrete input. -/
def unitConfig : SimulationConfig :=
  { base_reactivity := 1, void_reactivity_boost := 1,
    reactivity_neighbor_coupling_factor := 1, heat_generation_factor := 1,
    coolant_temperature := 1, coolant_efficiency := 1,
    temperature_passive_decay_rate := 1, energy_per_heat_unit := 1,
    energy_required_per_unit := 1, steam_expansion := 1,
    pressure_curve_exponent := 1, nominal_pressure := 1, pressure_scale := 1,
    steam_pull_factor := 1 }

/-- The state a single all-default cell reaches after one tick under
`unitConfig` (and a power function returning 0), used as a concrete instance
below. -/
def tickWitnessCell : Cell :=
  { control_rod := 0, coolant_level := 0, local_reactivity := 2, reactivity := 2,
    temperature := 27, steam_level := 0, steam_output := 0, pressure := 1,
    coolant_flow := 0, steam_pull_capacity := 0 }

/-! ## Helper lemmas -/

/-- The refill block never pushes the total fluid volume above 1: the coolant
added is at most `space_remaining`. -/
lemma refillStep_sum_le_one (c : Cell) :
    (refillStep c).coolant_level + (refillStep c).steam_level ≤ 1 := by
  have h := min_le_right c.coolant_flow (1 - (c.coolant_level + c.steam_level))
  simp only [refillStep]
  linarith

/-- The pressure block only rewrites `pressure`; every other field is kept. -/
lemma pressureStep_preserves (powf : ℚ → ℚ → ℚ) (config : SimulationConfig) (c : Cell) :
    (pressureStep powf config c).coolant_level = c.coolant_level ∧
    (pressureStep powf config c).steam_level = c.steam_level ∧
    (pressureStep powf config c).steam_pull_capacity = c.steam_pull_capacity ∧
    (pressureStep powf config c).coolant_flow = c.coolant_flow ∧
    (pressureStep powf config c).temperature = c.temperature := by
  exact ⟨rfl, rfl, rfl, rfl, rfl⟩

/-- If the quantity under the final `.max(0.0)` of the output block is
nonpositive, the block emits no steam and the steam level is kept. -/
lemma outputStep_no_output (config : SimulationConfig) (c : Cell)
    (h : min (min c.steam_level (max (c.coolant_level + c.steam_level - 1) 0))
          (potential_steam_output config c.steam_pull_capacity c.pressure) ≤ 0) :
    (outputStep config c).steam_output = 0 ∧
    (outputStep config c).steam_level = c.steam_level := by
  have hout : (outputStep config c).steam_output =
      max (min (min c.steam_level (max (c.coolant_level + c.steam_level - 1) 0))
        (potential_steam_output config c.steam_pull_capacity c.pressure)) 0 := rfl
  have hz : max (min (min c.steam_level (max (c.coolant_level + c.steam_level - 1) 0))
      (potential_steam_output config c.steam_pull_capacity c.pressure)) 0 = 0 :=
    max_eq_right h
  constructor
  · rw [hout, hz]
  · have hlvl : (outputStep config c).steam_level =
        c.steam_level -
          max (min (min c.steam_level (max (c.coolant_level + c.steam_level - 1) 0))
            (potential_steam_output config c.steam_pull_capacity c.pressure)) 0 := rfl
    rw [hlvl, hz, sub_zero]

/-- What one tick does to the cell at position `p`: the composition of the
per-cell bodies of the four cell stages, each reading the intermediate core
its stage observes (edge stages leave the cell index untouched). -/
lemma tick_cellAt (powf : ℚ → ℚ → ℚ) (config : SimulationConfig) (core : Core)
    (p : Position) :
    (tick powf config core).cellAt p =
    (core.cellAt p).map (fun c =>
      generateSteamCell powf config
        (temperatureUpdate config
          (update_edge_temperatures (update_total_reactivity config
            (update_edge_reactivity (update_local_reactivity config core)).1)).1 p
          (totalReactivityUpdate config
            (update_edge_reactivity (update_local_reactivity config core)).1 p
            (localReactivityUpdate config c)))) := by
  simp only [tick, generate_steam, update_temperature, update_total_reactivity,
    update_local_reactivity, update_edge_temperatures, update_edge_reactivity,
    Core.mapCells, Core.cellAt]
  cases core.cells_by_pos p <;> rfl

/-- `find_edge` on a core with no edges resolves nothing. -/
lemma find_edge_nil (core : Core) (h : core.edges = []) (a b : Position) :
    core.find_edge a b = none := by
  simp [Core.find_edge, h]

/-- The reactivity contribution of a direction, through `Option`. -/
lemma edgeReactivityOr0_eq (core : Core) (p q : Position) :
    edgeReactivityOr0 core p q = ((core.find_edge p q).map Edge.reactivity).getD 0 := by
  unfold edgeReactivityOr0
  cases core.find_edge p q <;> rfl

/-- The temperature contribution of a direction, through `Option`. -/
lemma edgeTemperatureOr25_eq (core : Core) (p q : Position) :
    edgeTemperatureOr25 core p q = ((core.find_edge p q).map Edge.temperature).getD 25 := by
  unfold edgeTemperatureOr25
  cases core.find_edge p q <;> rfl

/-- With no edges every neighbour direction contributes 0 reactivity. -/
lemma neighborReactivitySum_nil (core : Core) (h : core.edges = []) (p : Position) :
    neighborReactivitySum core p = 0 := by
  simp [neighborReactivitySum, Position.neighbours, edgeReactivityOr0,
    find_edge_nil core h]

/-- With no edges every neighbour direction contributes the 25.0 fallback. -/
lemma neighborTempSum_nil (core : Core) (h : core.edges = []) (p : Position) :
    neighborTempSum core p = 100 := by
  simp [neighborTempSum, Position.neighbours, edgeTemperatureOr25,
    find_edge_nil core h]
  norm_num

/-- The total-reactivity body on a core with no edges: the neighbour boost
vanishes. -/
lemma totalReactivityUpdate_no_edges (cfg : SimulationConfig) (core : Core)
    (p : Position) (c : Cell) (h : core.edges = []) :
    totalReactivityUpdate cfg core p c = { c with reactivity := c.local_reactivity } := by
  simp [totalReactivityUpdate, neighborReactivitySum_nil core h p]

/-- The temperature body on a core with no edges: the ambient temperature is
the 25° fallback. -/
lemma temperatureUpdate_no_edges (cfg : SimulationConfig) (core : Core)
    (p : Position) (c : Cell) (h : core.edges = []) :
    temperatureUpdate cfg core p c =
    { c with temperature := c.temperature + c.reactivity * cfg.heat_generation_factor
        - c.coolant_level * cfg.coolant_efficiency * (c.temperature - cfg.coolant_temperature)
        - (c.temperature - 25) * cfg.temperature_passive_decay_rate } := by
  have h4 : neighborTempSum core p / 4 = 25 := by rw [neighborTempSum_nil core h p]; norm_num
  simp [temperatureUpdate, h4]

/-- The value the local-reactivity stage assigns (the formula of §4.1), as a
standalone function for use in statements. -/
def localReactivityValue (config : SimulationConfig) (c : Cell) : ℚ :=
  config.base_reactivity * (1 - c.control_rod) *
    (1 + config.void_reactivity_boost * (1 - c.coolant_level))

/-- One tick on a single isolated cell, written out: the reactivity stages
assign the local formula (no neighbour boost), the temperature stage uses the
25° ambient fallback, and the steam stage runs on the result. -/
lemma tick_singleCell_eval (powf : ℚ → ℚ → ℚ) (config : SimulationConfig) (c : Cell) :
    (tick powf config (singleCellCore c)).cellAt ⟨0, 0⟩ =
      some (generateSteamCell powf config
        { c with
          local_reactivity := localReactivityValue config c,
          reactivity := localReactivityValue config c,
          temperature := c.temperature
            + localReactivityValue config c * config.heat_generation_factor
            - c.coolant_level * config.coolant_efficiency *
                (c.temperature - config.coolant_temperature)
            - (c.temperature - 25) * config.temperature_passive_decay_rate }) := by
  rw [tick_cellAt]
  have hc : (singleCellCore c).cellAt ⟨0, 0⟩ = some c := rfl
  rw [hc, Option.map_some']
  rw [totalReactivityUpdate_no_edges _ _ _ _ rfl]
  rw [temperatureUpdate_no_edges _ _ _ _ rfl]
  simp [localReactivityUpdate, localReactivityValue]

/-- If a cell holds no coolant and no steam, the steam stage emits nothing:
the phase change is skipped and the output is capped by the steam level. -/
lemma generateSteamCell_no_fluid (powf : ℚ → ℚ → ℚ) (config : SimulationConfig)
    (c : Cell) (hc : c.coolant_level = 0) (hs : c.steam_level = 0) :
    (generateSteamCell powf config c).steam_output = 0 := by
  have hpc : phaseChange config c = c := by
    unfold phaseChange
    rw [if_neg]
    rw [hc]
    simp
  unfold generateSteamCell
  rw [hpc]
  obtain ⟨h1, h2, h3, h4, h5⟩ := pressureStep_preserves powf config c
  have hmin : min (min (pressureStep powf config c).steam_level
        (max ((pressureStep powf config c).coolant_level +
          (pressureStep powf config c).steam_level - 1) 0))
      (potential_steam_output config (pressureStep powf config c).steam_pull_capacity
        (pressureStep powf config c).pressure) ≤ 0 := by
    refine le_trans (min_le_left _ _) (le_trans (min_le_left _ _) ?_)
    rw [h2, hs]
  obtain ⟨ho, _⟩ := outputStep_no_output config (pressureStep powf config c) hmin
  show (refillStep (outputStep config (pressureStep powf config c))).steam_output = 0
  rw [show (refillStep (outputStep config (pressureStep powf config c))).steam_output =
    (outputStep config (pressureStep powf config c)).steam_output from rfl, ho]

/-- If the cell is not boiling, its pull capacity and coolant flow are 0, and
its fluid volume is within bounds, the steam stage moves no fluid at all. -/
lemma generateSteamCell_levels_unchanged (powf : ℚ → ℚ → ℚ)
    (config : SimulationConfig) (c : Cell)
    (hflow : c.coolant_flow = 0) (hcap : c.steam_pull_capacity = 0)
    (hsum : c.coolant_level + c.steam_level ≤ 1)
    (htemp : ¬ c.temperature > boiling_point c.pressure) :
    (generateSteamCell powf config c).coolant_level = c.coolant_level ∧
    (generateSteamCell powf config c).steam_level = c.steam_level := by
  have hpc : phaseChange config c = c := by
    unfold phaseChange
    rw [if_neg]
    exact fun h => htemp h.1
  unfold generateSteamCell
  rw [hpc]
  obtain ⟨h1, h2, h3, h4, h5⟩ := pressureStep_preserves powf config c
  have hmin : min (min (pressureStep powf config c).steam_level
        (max ((pressureStep powf config c).coolant_level +
          (pressureStep powf config c).steam_level - 1) 0))
      (potential_steam_output config (pressureStep powf config c).steam_pull_capacity
        (pressureStep powf config c).pressure) ≤ 0 := by
    refine le_trans (min_le_right _ _) ?_
    rw [h3, hcap]
    exact min_le_left 0 _
  obtain ⟨ho, hl⟩ := outputStep_no_output config (pressureStep powf config c) hmin
  have hocool : (outputStep config (pressureStep powf config c)).coolant_level =
      c.coolant_level := h1
  have hoflow : (outputStep config (pressureStep powf config c)).coolant_flow =
      c.coolant_flow := h4
  have hosteam : (outputStep config (pressureStep powf config c)).steam_level =
      c.steam_level := by rw [hl, h2]
  constructor
  · show (outputStep config (pressureStep powf config c)).coolant_level +
      min (outputStep config (pressureStep powf config c)).coolant_flow
        (1 - ((outputStep config (pressureStep powf config c)).coolant_level +
          (outputStep config (pressureStep powf config c)).steam_level)) =
      c.coolant_level
    rw [hocool, hoflow, hosteam, hflow,
      min_eq_left (by linarith : (0 : ℚ) ≤ 1 - (c.coolant_level + c.steam_level)),
      add_zero]
  · show (refillStep (outputStep config (pressureStep powf config c))).steam_level =
      c.steam_level
    rw [show (refillStep (outputStep config (pressureStep powf config c))).steam_level =
      (outputStep config (pressureStep powf config c)).steam_level from rfl, hosteam]

/-- Concrete evaluation: one tick on a single all-default cell under
`unitConfig` yields `tickWitnessCell`. -/
lemma tickWitness_eval :
    (tick (fun _ _ => 0) unitConfig (singleCellCore Cell.default)).cellAt ⟨0, 0⟩ =
      some tickWitnessCell := by
  rw [tick_cellAt]
  have hc : (singleCellCore Cell.default).cellAt ⟨0, 0⟩ = some Cell.default := rfl
  rw [hc, Option.map_some']
  rw [totalReactivityUpdate_no_edges _ _ _ _ rfl]
  rw [temperatureUpdate_no_edges _ _ _ _ rfl]
  norm_num [localReactivityUpdate, Cell.default, unitConfig, generateSteamCell,
    phaseChange, boiling_point, pressureStep, outputStep, refillStep,
    available_space, temp_kelvin, potential_steam_output, tickWitnessCell]

/-! ## The claims -/

/-- C10: in the pressure block of the steam-generation stage, the divisor
`available_space` is floored at 0.01 (so the division never divides by zero)
and `temp_kelvin` is clamped at 0 (so the base handed to the power function is
never negative); the stage raises no numerical error. -/
theorem pressure_step_guards (coolant temperature : ℚ) :
    1 / 100 ≤ available_space coolant ∧ 0 ≤ temp_kelvin temperature :=
  ⟨le_max_right _ _, le_max_right _ _⟩

/-- C9: in the output block of the steam-generation stage, with the pull
capacity, pull factor and nominal pressure held fixed (the factor nonnegative
and the nominal pressure positive, as for any physical configuration),
`potential_steam_output` is monotone in the pressure. -/
theorem potential_output_monotone (config : SimulationConfig) (cap p1 p2 : ℚ)
    (hf : 0 ≤ config.steam_pull_factor) (hn : 0 < config.nominal_pressure)
    (hp : p1 ≤ p2) :
    potential_steam_output config cap p1 ≤ potential_steam_output config cap p2 := by
  unfold potential_steam_output
  gcongr

/-- Witness for C9 at a concrete configuration and pressures 1 ≤ 2. -/
theorem potential_output_monotone_witness :
    (0 ≤ unitConfig.steam_pull_factor ∧ 0 < unitConfig.nominal_pressure ∧ (1 : ℚ) ≤ 2) ∧
    potential_steam_output unitConfig 5 1 ≤ potential_steam_output unitConfig 5 2 :=
  ⟨⟨by norm_num [unitConfig], by norm_num [unitConfig], by norm_num⟩,
   potential_output_monotone unitConfig 5 1 2 (by norm_num [unitConfig])
     (by norm_num [unitConfig]) (by norm_num)⟩

/-- C3: if the total fluid volume is at most 1 when the output block runs
(i.e. after the phase-change block; the pressure block between them moves no
fluid), the stage emits `steam_output = 0` and extraction leaves `steam_level`
as the phase-change block left it: steam is only delivered when
`coolant_level + steam_level` strictly exceeds 1, since the output is capped
by `volume_excess`. -/
theorem steam_output_requires_volume_excess (powf : ℚ → ℚ → ℚ)
    (config : SimulationConfig) (c : Cell)
    (h : (phaseChange config c).coolant_level + (phaseChange config c).steam_level ≤ 1) :
    (generateSteamCell powf config c).steam_output = 0 ∧
    (generateSteamCell powf config c).steam_level = (phaseChange config c).steam_level := by
  obtain ⟨h1, h2, h3, h4, h5⟩ := pressureStep_preserves powf config (phaseChange config c)
  have hmin : min (min (pressureStep powf config (phaseChange config c)).steam_level
        (max ((pressureStep powf config (phaseChange config c)).coolant_level +
          (pressureStep powf config (phaseChange config c)).steam_level - 1) 0))
      (potential_steam_output config
        (pressureStep powf config (phaseChange config c)).steam_pull_capacity
        (pressureStep powf config (phaseChange config c)).pressure) ≤ 0 := by
    have hve : max ((pressureStep powf config (phaseChange config c)).coolant_level +
        (pressureStep powf config (phaseChange config c)).steam_level - 1) 0 = 0 :=
      max_eq_right (by rw [h1, h2]; linarith)
    calc min (min (pressureStep powf config (phaseChange config c)).steam_level
            (max ((pressureStep powf config (phaseChange config c)).coolant_level +
              (pressureStep powf config (phaseChange config c)).steam_level - 1) 0))
          (potential_steam_output config
            (pressureStep powf config (phaseChange config c)).steam_pull_capacity
            (pressureStep powf config (phaseChange config c)).pressure)
        ≤ min (pressureStep powf config (phaseChange config c)).steam_level
            (max ((pressureStep powf config (phaseChange config c)).coolant_level +
              (pressureStep powf config (phaseChange config c)).steam_level - 1) 0) :=
          min_le_left _ _
      _ ≤ max ((pressureStep powf config (phaseChange config c)).coolant_level +
            (pressureStep powf config (phaseChange config c)).steam_level - 1) 0 :=
          min_le_right _ _
      _ = 0 := hve
  obtain ⟨ho, hl⟩ :=
    outputStep_no_output config (pressureStep powf config (phaseChange config c)) hmin
  refine ⟨?_, ?_⟩
  · show (refillStep (outputStep config
      (pressureStep powf config (phaseChange config c)))).steam_output = 0
    rw [show (refillStep (outputStep config
      (pressureStep powf config (phaseChange config c)))).steam_output =
      (outputStep config (pressureStep powf config (phaseChange config c))).steam_output
      from rfl, ho]
  · show (refillStep (outputStep config
      (pressureStep powf config (phaseChange config c)))).steam_level =
      (phaseChange config c).steam_level
    rw [show (refillStep (outputStep config
      (pressureStep powf config (phaseChange config c)))).steam_level =
      (outputStep config (pressureStep powf config (phaseChange config c))).steam_level
      from rfl, hl, h2]

/-- Witness for C3 at the all-default cell and the all-ones configuration. -/
theorem steam_output_requires_volume_excess_witness :
    ((phaseChange unitConfig Cell.default).coolant_level +
      (phaseChange unitConfig Cell.default).steam_level ≤ 1) ∧
    (generateSteamCell (fun _ _ => 0) unitConfig Cell.default).steam_output = 0 ∧
    (generateSteamCell (fun _ _ => 0) unitConfig Cell.default).steam_level =
      (phaseChange unitConfig Cell.default).steam_level :=
  ⟨by norm_num [phaseChange, boiling_point, Cell.default, unitConfig],
   steam_output_requires_volume_excess (fun _ _ => 0) unitConfig Cell.default
    (by norm_num [phaseChange, boiling_point, Cell.default, unitConfig])⟩

/-- C2: at the end of every tick — after the coolant-refill block — every
cell's `coolant_level + steam_level` is at most 1 (exactly, in exact
arithmetic), for every configuration, every power function, and every input
state, however large `coolant_flow` is and whatever `steam_pull_capacity` is,
and even if the sum exceeded 1 earlier in the tick: the refill respects
`space_remaining`. -/
theorem coolant_steam_volume_bound (powf : ℚ → ℚ → ℚ) (config : SimulationConfig)
    (core : Core) (p : Position) (c : Cell)
    (h : (tick powf config core).cellAt p = some c) :
    c.coolant_level + c.steam_level ≤ 1 := by
  rw [tick_cellAt] at h
  rcases Option.map_eq_some'.1 h with ⟨c0, _, hc⟩
  subst hc
  exact refillStep_sum_le_one _

/-- Witness for C2: the tick on a single default cell with the all-ones
configuration. -/
theorem coolant_steam_volume_bound_witness :
    ((tick (fun _ _ => 0) unitConfig (singleCellCore Cell.default)).cellAt ⟨0, 0⟩ =
      some tickWitnessCell) ∧
    tickWitnessCell.coolant_level + tickWitnessCell.steam_level ≤ 1 :=
  ⟨tickWitness_eval, coolant_steam_volume_bound (fun _ _ => 0) unitConfig
    (singleCellCore Cell.default) ⟨0, 0⟩ tickWitnessCell tickWitness_eval⟩

/-- C5: the local-reactivity stage sets every cell's `local_reactivity` to
`base_reactivity * (1 - control_rod) * (1 + void_reactivity_boost * (1 - coolant_level))`,
a pure total function of the cell's control rod, coolant level and the
configuration, leaving every other field unchanged. -/
theorem local_reactivity_spec (config : SimulationConfig) (core : Core) (p : Position) :
    (update_local_reactivity config core).cellAt p =
    (core.cellAt p).map (fun c =>
      { c with local_reactivity :=
          config.base_reactivity * (1 - c.control_rod) *
            (1 + config.void_reactivity_boost * (1 - c.coolant_level)) }) := by
  show (core.cellAt p).map (fun c => localReactivityUpdate config c) = _
  cases core.cellAt p <;> rfl

/-- C1: a single cell at the origin with every numeric field at its type
default 0 — and any `SteamPullCapacity` default at all — produces, after one
full tick, `steam_output = 0` (in particular not greater than 0), for every
configuration and every power function: with no coolant and no steam the
phase-change block is skipped and the output is capped by the steam level. -/
theorem default_cell_no_steam_output (powf : ℚ → ℚ → ℚ) (config : SimulationConfig)
    (cap : ℚ) :
    ((tick powf config
        (singleCellCore { Cell.default with steam_pull_capacity := cap })).cellAt
      ⟨0, 0⟩).map Cell.steam_output = some 0 := by
  rw [tick_singleCell_eval, Option.map_some']
  simp only [Option.some.injEq]
  exact generateSteamCell_no_fluid powf config _ rfl rfl

/-- The power function, configuration, and cell of the C4 counterexample:
zero reactivity and zero flows, but a cell already hot enough to boil. -/
def cexPowf : ℚ → ℚ → ℚ := fun x _ => x

/-- Configuration for the C4 counterexample: no reactivity, no heat exchange,
unit energy constants. -/
def cexConfig : SimulationConfig :=
  { base_reactivity := 0, void_reactivity_boost := 0,
    reactivity_neighbor_coupling_factor := 0, heat_generation_factor := 0,
    coolant_temperature := 0, coolant_efficiency := 0,
    temperature_passive_decay_rate := 0, energy_per_heat_unit := 1,
    energy_required_per_unit := 1, steam_expansion := 1,
    pressure_curve_exponent := 1, nominal_pressure := 1, pressure_scale := 0,
    steam_pull_factor := 0 }

/-- Cell for the C4 counterexample: 200° at pressure 1, half full of coolant,
zero reactivity, zero coolant flow and zero pull capacity. -/
def cexCell : Cell :=
  { control_rod := 0, coolant_level := 1 / 2, local_reactivity := 0,
    reactivity := 0, temperature := 200, steam_level := 0, steam_output := 0,
    pressure := 1, coolant_flow := 0, steam_pull_capacity := 0 }

/-- C4 counterexample: a cell with `coolant_flow = 0`, `steam_pull_capacity
= 0` and total reactivity 0 (both the stored value and the recomputed local
value, which for an isolated cell is the total), whose `coolant_level`
nevertheless changes over one tick, because its temperature exceeds the
boiling point and coolant boils into steam. -/
theorem zero_input_levels_counterexample :
    cexCell.coolant_flow = 0 ∧ cexCell.steam_pull_capacity = 0 ∧
    cexCell.reactivity = 0 ∧ localReactivityValue cexConfig cexCell = 0 ∧
    ((tick cexPowf cexConfig (singleCellCore cexCell)).cellAt ⟨0, 0⟩).map
        Cell.coolant_level ≠ some cexCell.coolant_level := by
  refine ⟨rfl, rfl, rfl, by norm_num [localReactivityValue, cexConfig, cexCell], ?_⟩
  rw [tick_singleCell_eval, Option.map_some']
  norm_num [generateSteamCell, phaseChange, boiling_point, pressureStep,
    outputStep, refillStep, available_space, temp_kelvin,
    potential_steam_output, localReactivityValue, cexConfig, cexCell, cexPowf]

/-- C4 (amended): a single isolated cell with `coolant_flow = 0`,
`steam_pull_capacity = 0` and total reactivity 0 keeps its `coolant_level`
and `steam_level` unchanged over one tick, provided additionally that its
fluid volume is within the unit bound and that its temperature entering the
steam stage (after the zero heat gain and the two heat losses) does not
exceed the boiling point for its pressure — without those provisos the claim
fails, as `zero_input_levels_counterexample` shows. -/
theorem zero_input_levels_unchanged (powf : ℚ → ℚ → ℚ) (config : SimulationConfig)
    (c : Cell)
    (hflow : c.coolant_flow = 0) (hcap : c.steam_pull_capacity = 0)
    (hreact : localReactivityValue config c = 0)
    (hsum : c.coolant_level + c.steam_level ≤ 1)
    (htemp : c.temperature
        - c.coolant_level * config.coolant_efficiency *
            (c.temperature - config.coolant_temperature)
        - (c.temperature - 25) * config.temperature_passive_decay_rate
        ≤ boiling_point c.pressure) :
    ((tick powf config (singleCellCore c)).cellAt ⟨0, 0⟩).map
        (fun x => (x.coolant_level, x.steam_level)) =
      some (c.coolant_level, c.steam_level) := by
  rw [tick_singleCell_eval, Option.map_some']
  rw [hreact]
  obtain ⟨hcool, hsteam⟩ := generateSteamCell_levels_unchanged powf config
    { c with local_reactivity := 0, reactivity := 0,
             temperature := c.temperature + 0 * config.heat_generation_factor
               - c.coolant_level * config.coolant_efficiency *
                   (c.temperature - config.coolant_temperature)
               - (c.temperature - 25) * config.temperature_passive_decay_rate }
    hflow hcap hsum
    (not_lt.2 (by
      show c.temperature + 0 * config.heat_generation_factor
          - c.coolant_level * config.coolant_efficiency *
              (c.temperature - config.coolant_temperature)
          - (c.temperature - 25) * config.temperature_passive_decay_rate
        ≤ boiling_point c.pressure
      linarith))
  rw [Option.some.injEq, Prod.mk.injEq]
  exact ⟨hcool, hsteam⟩

/-- Witness for the amended C4 at the all-default cell under `cexConfig`. -/
theorem zero_input_levels_unchanged_witness :
    (Cell.default.coolant_flow = 0 ∧ Cell.default.steam_pull_capacity = 0 ∧
     localReactivityValue cexConfig Cell.default = 0 ∧
     Cell.default.coolant_level + Cell.default.steam_level ≤ 1 ∧
     Cell.default.temperature
        - Cell.default.coolant_level * cexConfig.coolant_efficiency *
            (Cell.default.temperature - cexConfig.coolant_temperature)
        - (Cell.default.temperature - 25) * cexConfig.temperature_passive_decay_rate
        ≤ boiling_point Cell.default.pressure) ∧
    ((tick cexPowf cexConfig (singleCellCore Cell.default)).cellAt ⟨0, 0⟩).map
        (fun x => (x.coolant_level, x.steam_level)) =
      some (Cell.default.coolant_level, Cell.default.steam_level) :=
  ⟨⟨rfl, rfl, by norm_num [localReactivityValue, cexConfig, Cell.default],
    by norm_num [Cell.default],
    by norm_num [Cell.default, cexConfig, boiling_point]⟩,
   zero_input_levels_unchanged cexPowf cexConfig Cell.default rfl rfl
     (by norm_num [localReactivityValue, cexConfig, Cell.default])
     (by norm_num [Cell.default])
     (by norm_num [Cell.default, cexConfig, boiling_point])⟩

/-- C6: the total-reactivity stage sets every cell's `reactivity` to its
`local_reactivity` plus the coupling factor times the sum, over the cell's 4
axis-aligned neighbour positions, of the connecting edge's reactivity where
`find_edge` resolves an edge and 0 where it does not. -/
theorem total_reactivity_spec (config : SimulationConfig) (core : Core) (p : Position) :
    (update_total_reactivity config core).cellAt p =
    (core.cellAt p).map (fun c =>
      { c with reactivity := c.local_reactivity +
          (p.neighbours.map (fun q =>
            ((core.find_edge p q).map Edge.reactivity).getD 0)).sum *
            config.reactivity_neighbor_coupling_factor }) := by
  have h : neighborReactivitySum core p =
      (p.neighbours.map (fun q =>
        ((core.find_edge p q).map Edge.reactivity).getD 0)).sum := by
    simp [neighborReactivitySum, Position.neighbours, edgeReactivityOr0_eq]
    ring
  show (core.cellAt p).map (fun c => totalReactivityUpdate config core p c) = _
  cases core.cellAt p with
  | none => rfl
  | some c => simp [totalReactivityUpdate, h]

/-- C7: the temperature stage computes the ambient temperature as the sum of
the 4 neighbour directions' edge temperatures — substituting the fallback
25.0 for a direction with no edge — divided by 4, then adds the heat gain
`reactivity * heat_generation_factor` (with the total reactivity of the
previous stage) and subtracts the coolant heat loss and the passive loss
toward ambient, with no clamping.  For a cell with no adjacent edges the
ambient value is 25. -/
theorem temperature_update_spec (config : SimulationConfig) (core : Core) (p : Position) :
    (update_temperature config core).cellAt p =
    (core.cellAt p).map (fun c =>
      { c with temperature := c.temperature
          + c.reactivity * config.heat_generation_factor
          - c.coolant_level * config.coolant_efficiency *
              (c.temperature - config.coolant_temperature)
          - (c.temperature -
              (p.neighbours.map (fun q =>
                ((core.find_edge p q).map Edge.temperature).getD 25)).sum / 4) *
              config.temperature_passive_decay_rate }) := by
  have h : neighborTempSum core p =
      (p.neighbours.map (fun q =>
        ((core.find_edge p q).map Edge.temperature).getD 25)).sum := by
    simp [neighborTempSum, Position.neighbours, edgeTemperatureOr25_eq]
    ring
  show (core.cellAt p).map (fun c => temperatureUpdate config core p c) = _
  cases core.cellAt p with
  | none => rfl
  | some c => simp [temperatureUpdate, h]

/-- C8: both edge stages process every edge; an edge whose two endpoint
positions are in the index gets the arithmetic mean of the endpoint cells'
values, while an edge with a missing endpoint is left unchanged and a warning
is collected — every other edge is still processed (the stage is a total map
over the edge list) and the tick never aborts. -/
theorem edge_update_missing_endpoint_policy (core : Core) (e : Edge) :
    (update_edge_reactivity core).1.edges =
      core.edges.map (fun x => (edgeReactivityUpdate core x).1) ∧
    (update_edge_temperatures core).1.edges =
      core.edges.map (fun x => (edgeTemperatureUpdate core x).1) ∧
    (∀ c1 c2, core.cellAt e.nodes.1 = some c1 → core.cellAt e.nodes.2 = some c2 →
      (edgeReactivityUpdate core e).1 =
        { e with reactivity := (c1.local_reactivity + c2.local_reactivity) / 2 } ∧
      (edgeTemperatureUpdate core e).1 =
        { e with temperature := (c1.temperature + c2.temperature) / 2 }) ∧
    (core.cellAt e.nodes.1 = none ∨ core.cellAt e.nodes.2 = none →
      (edgeReactivityUpdate core e).1 = e ∧
      (edgeTemperatureUpdate core e).1 = e ∧
      (edgeReactivityUpdate core e).2 ≠ [] ∧
      (edgeTemperatureUpdate core e).2 ≠ []) := by
  refine ⟨rfl, rfl, ?_, ?_⟩
  · intro c1 c2 h1 h2
    constructor
    · simp [edgeReactivityUpdate, h1, h2]
    · simp [edgeTemperatureUpdate, h1, h2]
  · intro h
    rcases h with h | h
    · simp [edgeReactivityUpdate, edgeTemperatureUpdate, h]
    · cases hc : core.cellAt e.nodes.1 with
      | none => simp [edgeReactivityUpdate, edgeTemperatureUpdate, hc]
      | some c1 => simp [edgeReactivityUpdate, edgeTemperatureUpdate, hc, h]

/-- Cells and edges for the C8 witness: two occupied positions, one edge
between them, and one dangling edge toward an unoccupied position. -/
def witnessCellA : Cell := { Cell.default with local_reactivity := 1, temperature := 10 }

/-- Second cell of the C8 witness core. -/
def witnessCellB : Cell := { Cell.default with local_reactivity := 3, temperature := 30 }

/-- Edge with both endpoints present. -/
def goodEdge : Edge := { nodes := (⟨0, 0⟩, ⟨1, 0⟩), reactivity := 7, temperature := 7 }

/-- Edge whose second endpoint is not in the index. -/
def danglingEdge : Edge := { nodes := (⟨0, 0⟩, ⟨2, 0⟩), reactivity := 9, temperature := 9 }

/-- The C8 witness core. -/
def witnessCore : Core :=
  { cells_by_pos := fun p =>
      if p = ⟨0, 0⟩ then some witnessCellA
      else if p = ⟨1, 0⟩ then some witnessCellB
      else none,
    edges := [goodEdge, danglingEdge] }

/-- Witness for C8: on `witnessCore` the connected edge is averaged to
reactivity 2, while the dangling edge is kept and warned about. -/
theorem edge_update_missing_endpoint_policy_witness :
    (edgeReactivityUpdate witnessCore goodEdge).1 =
      { goodEdge with reactivity := 2 } ∧
    (edgeReactivityUpdate witnessCore danglingEdge).1 = danglingEdge ∧
    (edgeReactivityUpdate witnessCore danglingEdge).2 ≠ [] := by
  have hg := (edge_update_missing_endpoint_policy witnessCore goodEdge).2.2.1
    witnessCellA witnessCellB rfl rfl
  have hd := (edge_update_missing_endpoint_policy witnessCore danglingEdge).2.2.2
    (Or.inr rfl)
  refine ⟨?_, hd.1, hd.2.2.1⟩
  rw [hg.1]
  norm_num [goodEdge, witnessCellA, witnessCellB, Cell.default]

end Reactor
